import Mathlib

/-!
Shallow embedding of the recommendation engine of the `rec_sys` repository
(`app/recommender/`): the data-access layer (`data_loader.py`), the three
strategies (`strategies/random_rec.py`, `strategies/most_popular.py`,
`strategies/item_cf.py`), the abstract base class (`base.py`) and the
orchestration service (`service.py`).

Modelling conventions:
* The external database is a value of type `DB`: the `item_info` table is the
  list of its item ids, the `user_behavior` table is a list of
  `(user_id, item_id)` event rows.
* SQL aggregation queries are embedded as pure functions over `DB`.  The one
  query whose result order is not fully determined by the code — the
  popularity query, whose only sort key is `ORDER BY popularity DESC` — is
  modelled nondeterministically: any row list that is a permutation of the
  per-item counts and is non-increasing in the count is a possible answer
  (predicate `PopularityRows`), and the functions that consume it take the
  row list as an argument.
* Python's global `random` module is modelled as an abstract deterministic
  generator: a `Sampler` provides `init` (the effect of `random.seed`) and
  `sample` (the effect of `random.sample`, threading the generator state).
  `Sampler.Good` records the contract of `random.sample`: with a sample size
  not exceeding the population it returns exactly that many elements of the
  population.
* `cosine_similarity` produces a matrix of real scores; its numeric values
  never influence the properties below, so the similarity matrix is kept
  abstract as a function argument `sim : Nat → Nat → ℚ` to `fit`.
* Python's stable `list.sort(key=score, reverse=True)` is modelled with
  `List.insertionSort` under the score-descending relation `scoreGE`.
* Machine floats are modelled as `ℚ`.
-/

namespace RecSys

abbrev ItemId := String
abbrev UserId := String

/-- External database state: the `item_info` table (list of item ids, in table
order) and the `user_behavior` table (list of `(user_id, item_id)` rows). -/
structure DB where
  items : List ItemId
  behaviors : List (UserId × ItemId)

namespace DataLoader

/-- `DataLoader.get_all_item_ids`: `SELECT _id FROM item_info`. -/
def get_all_item_ids (db : DB) : List ItemId := db.items

/-- `DataLoader.get_user_interacted_items`: `SELECT DISTINCT item_id FROM
user_behavior WHERE user_id = :user_id`.  The `DISTINCT` set is modelled as a
deduplicated list; only membership in it matters to the callers. -/
def get_user_interacted_items (db : DB) (user_id : UserId) : List ItemId :=
  ((db.behaviors.filter (fun r => decide (r.1 = user_id))).map (fun r => r.2)).dedup

/-- Number of `user_behavior` rows for an item: `COUNT(*) ... GROUP BY item_id`. -/
def itemCount (db : DB) (i : ItemId) : Nat :=
  (db.behaviors.filter (fun r => decide (r.2 = i))).length

/-- Distinct items occurring in `user_behavior`, in first-occurrence order. -/
def behaviorItems (db : DB) : List ItemId :=
  (db.behaviors.map (fun r => r.2)).dedup

/-- The multiset of `(item_id, count)` groups produced by
`SELECT item_id, COUNT(*) FROM user_behavior GROUP BY item_id`. -/
def popularityTable (db : DB) : List (ItemId × Nat) :=
  (behaviorItems db).map (fun i => (i, itemCount db i))

/-- Possible answers of the popularity query of
`DataLoader.get_item_popularity`.  The SQL orders only by
`popularity DESC`; the relative order of equal-count rows is chosen by the
database engine, so any count-sorted permutation of the groups is a valid
answer. -/
def PopularityRows (db : DB) (rows : List (ItemId × Nat)) : Prop :=
  rows.Perm (popularityTable db) ∧ rows.Pairwise (fun a b => b.2 ≤ a.2)

/-- `DataLoader.get_item_popularity`: `LIMIT top_k` applied to the ordered
query answer `rows`.  Python's `if top_k:` treats `0` as falsy, so a zero
limit means no limit. -/
def get_item_popularity (rows : List (ItemId × Nat)) (top_k : Option Nat) :
    List (ItemId × Nat) :=
  match top_k with
  | some kk => if kk = 0 then rows else rows.take kk
  | none => rows

/-- Count of behavior rows of one `(user, item)` pair. -/
def pairCount (db : DB) (u : UserId) (i : ItemId) : Nat :=
  (db.behaviors.filter (fun r => decide (r.1 = u ∧ r.2 = i))).length

/-- `DataLoader.get_interaction_matrix` data rows: group `user_behavior` by
`(user_id, item_id)`, count, keep groups with count ≥ `min_interactions`.
The `score` column is the count. -/
def interactionTriples (db : DB) (min_interactions : Nat) :
    List (UserId × ItemId × Nat) :=
  db.behaviors.dedup.filterMap (fun r =>
    let c := pairCount db r.1 r.2
    if min_interactions ≤ c then some (r.1, r.2, c) else none)

end DataLoader

/-- Abstract deterministic model of Python's global `random` module:
`init` is `random.seed`, `sample st pop n` is `random.sample(pop, n)` run in
generator state `st`, returning the chosen elements and the advanced state. -/
structure Sampler where
  init : Nat → Nat
  sample : Nat → List ItemId → Nat → List ItemId × Nat

/-- Contract of `random.sample(pop, n)` for `n ≤ len(pop)`: the result has
exactly `n` elements, all drawn from the population. -/
def Sampler.Good (s : Sampler) : Prop :=
  ∀ st pop n, n ≤ pop.length →
    (s.sample st pop n).1.length = n ∧ ∀ x ∈ (s.sample st pop n).1, x ∈ pop

namespace RandomRecommender

/-- `RandomRecommender.__init__`: `random.seed(seed)` is executed only when a
seed is configured; otherwise the ambient global generator state is kept. -/
def construct (s : Sampler) (seed : Option Nat) (ambient : Nat) : Nat :=
  match seed with
  | some sd => s.init sd
  | none => ambient

/-- `RandomRecommender.recommend`, threading the global generator state. -/
def recommend (s : Sampler) (db : DB) (user_id : UserId) (k : Nat)
    (filter_interacted : Bool) (st : Nat) : List ItemId × Nat :=
  let all_items := DataLoader.get_all_item_ids db
  if all_items.isEmpty then ([], st)
  else
    let candidate_items :=
      if filter_interacted then
        all_items.filter
          (fun item => decide (item ∉ DataLoader.get_user_interacted_items db user_id))
      else all_items
    let sample_size := min k candidate_items.length
    s.sample st candidate_items sample_size

/-- A sequence of `recommend` calls on one instance, threading the global
generator state from call to call. -/
def runCalls (s : Sampler) (db : DB) : Nat → List (UserId × Nat × Bool) → List (List ItemId)
  | _, [] => []
  | st, c :: rest =>
    let r := recommend s db c.1 c.2.1 c.2.2 st
    r.1 :: runCalls s db r.2 rest

end RandomRecommender

namespace MostPopularRecommender

/-- `MostPopularRecommender.recommend`.  `rows` is the database's answer to
the popularity query (see `DataLoader.PopularityRows`);
`popularity_threshold` is the configured minimum count (default 0). -/
def recommend (db : DB) (rows : List (ItemId × Nat)) (popularity_threshold : Nat)
    (user_id : UserId) (k : Nat) (filter_interacted : Bool) : List ItemId :=
  let fetch_size := if filter_interacted then k * 3 else k
  let popularity_list := DataLoader.get_item_popularity rows (some fetch_size)
  if popularity_list.isEmpty then []
  else
    let l1 := popularity_list.filter (fun p => decide (popularity_threshold ≤ p.2))
    let l2 :=
      if filter_interacted then
        l1.filter (fun p => decide (p.1 ∉ DataLoader.get_user_interacted_items db user_id))
      else l1
    (l2.take k).map (fun p => p.1)

end MostPopularRecommender

/-- Score-descending order on `(item_id, score)` pairs, the sort key of
`similar_items.sort(key=lambda x: x[1], reverse=True)`. -/
def scoreGE (a b : ItemId × ℚ) : Prop := b.2 ≤ a.2

instance : DecidableRel scoreGE := fun a b => inferInstanceAs (Decidable (b.2 ≤ a.2))

instance : IsTotal (ItemId × ℚ) scoreGE := ⟨fun a b => le_total b.2 a.2⟩

instance : IsTrans (ItemId × ℚ) scoreGE := ⟨fun _ _ _ h1 h2 => le_trans h2 h1⟩

namespace ItemCFRecommender

/-- Mutable state of an `ItemCFRecommender` instance: the `_is_fitted` flag
and the (possibly absent) similarity index `similarity_matrix`, an
association list keyed by item id. -/
structure State where
  fitted : Bool
  similarity_matrix : Option (List (ItemId × List (ItemId × ℚ)))

/-- Distinct item ids of the interaction data frame, in data-frame order:
`df["item_id"].unique()`, the key set of `item_id_map`. -/
def triplesItems (triples : List (UserId × ItemId × Nat)) : List ItemId :=
  (triples.map (fun t => t.2.1)).dedup

/-- Neighbor collection loop of `ItemCFRecommender.fit`: for one item index,
keep every other index whose similarity meets `min_similarity`, paired with
its item id. -/
def neighborCandidates (items : List ItemId) (sim : Nat → Nat → ℚ)
    (min_similarity : ℚ) (item_idx : Nat) : List (ItemId × ℚ) :=
  (List.range items.length).filterMap (fun other_idx =>
    if other_idx ≠ item_idx ∧ min_similarity ≤ sim item_idx other_idx then
      some (items.getD other_idx "", sim item_idx other_idx)
    else none)

/-- Index construction of `ItemCFRecommender.fit` (step 4): per item, sort
the qualifying neighbors by similarity descending and keep the top
`top_n_similar`. -/
def fitIndex (items : List ItemId) (sim : Nat → Nat → ℚ)
    (min_similarity : ℚ) (top_n_similar : Nat) : List (ItemId × List (ItemId × ℚ)) :=
  (List.range items.length).map (fun item_idx =>
    (items.getD item_idx "",
     (List.insertionSort scoreGE
        (neighborCandidates items sim min_similarity item_idx)).take top_n_similar))

/-- `ItemCFRecommender.fit`.  With no qualifying interaction rows it clears
`_is_fitted` and returns (leaving any previously loaded index in place);
otherwise it rebuilds the index and marks the model fitted.  `sim` stands for
the cosine-similarity matrix computed from the rating matrix. -/
def fit (prev : State) (triples : List (UserId × ItemId × Nat))
    (sim : Nat → Nat → ℚ) (min_similarity : ℚ) (top_n_similar : Nat) : State :=
  if triples.isEmpty then { prev with fitted := false }
  else
    { fitted := true
      similarity_matrix :=
        some (fitIndex (triplesItems triples) sim min_similarity top_n_similar) }

/-- Flat list of `(neighbor, score)` entries contributed by the user's
interacted items; items absent from the index contribute nothing
(the `continue` branch of `ItemCFRecommender.recommend`). -/
def entryList (M : List (ItemId × List (ItemId × ℚ))) (interacted : List ItemId) :
    List (ItemId × ℚ) :=
  interacted.flatMap (fun i => (List.lookup i M).getD [])

/-- Aggregated `candidate_scores[c]`: the sum of every similarity score
contributed to candidate `c` (defaultdict summation). -/
def candidateScore (M : List (ItemId × List (ItemId × ℚ))) (interacted : List ItemId)
    (c : ItemId) : ℚ :=
  (((entryList M interacted).filter (fun p => decide (p.1 = c))).map (fun p => p.2)).sum

/-- Key set of `candidate_scores`, in first-contribution order. -/
def candidateKeys (M : List (ItemId × List (ItemId × ℚ))) (interacted : List ItemId) :
    List ItemId :=
  ((entryList M interacted).map (fun p => p.1)).dedup

/-- Steps 2–4 of `ItemCFRecommender.recommend` for a fitted model and a user
with history: aggregate neighbor scores, optionally drop interacted items,
sort by aggregated score descending, truncate to `k`. -/
def recommendFitted (M : List (ItemId × List (ItemId × ℚ))) (db : DB)
    (user_id : UserId) (k : Nat) (filter_interacted : Bool) : List ItemId :=
  let interacted := DataLoader.get_user_interacted_items db user_id
  let keys0 := candidateKeys M interacted
  let keys := if filter_interacted then keys0.filter (fun c => decide (c ∉ interacted)) else keys0
  ((List.insertionSort scoreGE
      (keys.map (fun c => (c, candidateScore M interacted c)))).take k).map (fun p => p.1)

/-- `ItemCFRecommender.recommend` with its two fallback paths: an unfitted
model (or absent index) delegates to a fresh unseeded `RandomRecommender`,
and a fitted model with an empty user history delegates to a fresh
`MostPopularRecommender` (default threshold 0) with filtering disabled. -/
def recommend (s : Sampler) (cf : State) (db : DB) (rows : List (ItemId × Nat))
    (rng : Nat) (user_id : UserId) (k : Nat) (filter_interacted : Bool) : List ItemId :=
  match cf.fitted, cf.similarity_matrix with
  | true, some M =>
    let interacted := DataLoader.get_user_interacted_items db user_id
    if interacted.isEmpty then
      MostPopularRecommender.recommend db rows 0 user_id k false
    else
      recommendFitted M db user_id k filter_interacted
  | _, _ => (RandomRecommender.recommend s db user_id k filter_interacted rng).1

end ItemCFRecommender

/-- Strategy classes appearing in the service registry. -/
inductive StrategyTag
  | random
  | popular
  | itemcf

/-- `RecommenderService._ALGORITHM_REGISTRY`: name → strategy class, with
aliases mapping to the same class. -/
def ALGORITHM_REGISTRY : List (String × StrategyTag) :=
  [("random", StrategyTag.random),
   ("popular", StrategyTag.popular),
   ("mostpopular", StrategyTag.popular),
   ("itemcf", StrategyTag.itemcf),
   ("item_cf", StrategyTag.itemcf)]

/-- `RecommenderService._DEFAULT_ALGORITHM`. -/
def DEFAULT_ALGORITHM : String := "popular"

namespace RecommenderService

/-- Python's `str.lower()`, modelled character by character (the registry
keys are plain ASCII). -/
def toLowerStr (s : String) : String := ⟨s.data.map Char.toLower⟩

/-- Key resolution of `RecommenderService.get_recommender`: lower-case the
name and substitute the default key when it is not registered (logged as a
warning, never an error). -/
def resolveKey (algorithm : String) : String :=
  let key := toLowerStr algorithm
  if (ALGORITHM_REGISTRY.lookup key).isSome then key else DEFAULT_ALGORITHM

/-- Strategy class finally instantiated for a requested algorithm name. -/
def strategyFor (algorithm : String) : StrategyTag :=
  (ALGORITHM_REGISTRY.lookup (resolveKey algorithm)).getD StrategyTag.popular

/-- `RecommenderService.recommend`, dispatching to the resolved strategy.
Strategies are constructed with default configuration when no kwargs are
passed, hence popularity threshold 0.  The embedding is total, so the
exception fallback ring of the service never triggers. -/
def recommend (s : Sampler) (db : DB) (rows : List (ItemId × Nat))
    (cf : ItemCFRecommender.State) (rng : Nat) (algorithm : String)
    (user_id : UserId) (k : Nat) (filter_interacted : Bool) : List ItemId :=
  match strategyFor algorithm with
  | StrategyTag.random => (RandomRecommender.recommend s db user_id k filter_interacted rng).1
  | StrategyTag.popular => MostPopularRecommender.recommend db rows 0 user_id k filter_interacted
  | StrategyTag.itemcf => ItemCFRecommender.recommend s cf db rows rng user_id k filter_interacted

/-- `hasattr(recommender, "fit")` as evaluated by
`RecommenderService.train_model`: every strategy class inherits `fit` from
`BaseRecommender`, so the attribute always exists. -/
def hasattr_fit (_t : StrategyTag) : Bool := true

/-- `RecommenderService.train_model`: resolves the strategy, calls `fit` when
the `fit` attribute exists and returns `true`; the `return False` branch is
reachable only when `hasattr` fails. -/
def train_model (algorithm : String) : Bool :=
  if hasattr_fit (strategyFor algorithm) then true else false

end RecommenderService

/-- `BaseRecommender.recommend_with_scores` (the default, shared by all three
strategies): pair the items returned by `recommend` with the rank-based score
`1 - idx / max(n, 1)`. -/
def recommend_with_scores (recommendations : List ItemId) : List (ItemId × ℚ) :=
  recommendations.enum.map (fun p =>
    (p.2, 1 - (p.1 : ℚ) / ((max recommendations.length 1 : Nat) : ℚ)))

/-- Soundness contract of a filtered recommendation list: at most `k` items,
none of them already interacted with by the user. -/
def FilteredOk (db : DB) (user_id : UserId) (k : Nat) (out : List ItemId) : Prop :=
  out.length ≤ k ∧ ∀ x ∈ out, x ∉ DataLoader.get_user_interacted_items db user_id

/-- Concrete sampler used to instantiate the abstract generator in witnesses:
it deterministically picks the first `n` candidates. -/
def takeSampler : Sampler :=
  ⟨fun sd => sd, fun st pop n => (pop.take n, st + 1)⟩

/-- Witness database: three catalog items, one interaction of user `u1`. -/
def dbW : DB := ⟨["a", "b", "c"], [("u1", "a")]⟩

/-- Witness popularity-query answer for `dbW`. -/
def rowsW : List (ItemId × Nat) := [("a", 1)]

/-- Witness database with an empty `user_behavior` table. -/
def dbEmpty : DB := ⟨["a"], []⟩

/-- Database exhibiting a popularity tie: items `a` and `b` each have one
interaction. -/
def tieDB : DB := ⟨[], [("u1", "b"), ("u2", "a")]⟩

/-- Valid answer of the popularity query on `tieDB` in which the tie is NOT
in ascending item-id order: the SQL `ORDER BY popularity DESC` constrains
only the counts, so the engine may return the groups in this order. -/
def tieRows : List (ItemId × Nat) := [("b", 1), ("a", 1)]

end RecSys

namespace RecSys

section Theorems

/- Helper lemmas shared by several claims. -/

theorem takeSampler_good : takeSampler.Good := by
  intro st pop n h
  constructor
  · simp [takeSampler, List.length_take, Nat.min_eq_left h]
  · intro x hx
    exact List.take_subset _ _ hx

theorem get_item_popularity_sublist (rows : List (ItemId × Nat)) (top_k : Option Nat) :
    List.Sublist (DataLoader.get_item_popularity rows top_k) rows := by
  unfold DataLoader.get_item_popularity
  cases top_k with
  | none => exact List.Sublist.refl _
  | some kk =>
    by_cases h : kk = 0
    · simp [h]
    · simp [h, List.take_sublist]

/-- C9: for every strategy (none of the three overrides the base
implementation), `recommend_with_scores` returns exactly the items of
`recommend` in the same order, and the score attached at 0-based rank `i`
among the `n` returned items is `1 - i / max(n, 1)`. -/
theorem recommend_with_scores_rank_based (recs : List ItemId) :
    (recommend_with_scores recs).map (fun p => p.1) = recs ∧
    (recommend_with_scores recs).map (fun p => p.2)
      = (List.range recs.length).map
          (fun i : Nat => 1 - (i : ℚ) / ((max recs.length 1 : Nat) : ℚ)) := by
  constructor
  · unfold recommend_with_scores
    rw [List.map_map]
    exact List.enumFrom_map_snd 0 recs
  · unfold recommend_with_scores
    rw [List.map_map]
    have h2 : (List.range recs.length).map
        (fun i : Nat => 1 - (i : ℚ) / ((max recs.length 1 : Nat) : ℚ))
        = (recs.enum.map Prod.fst).map
            (fun i : Nat => 1 - (i : ℚ) / ((max recs.length 1 : Nat) : ℚ)) := by
      rw [List.enum_eq_enumFrom, List.enumFrom_map_fst, List.range_eq_range']
    rw [h2, List.map_map]
    rfl

/-- C6: with a configured seed, the whole sequence of outputs of repeated
`recommend` invocations with identical inputs is independent of the ambient
state of the global generator, hence identical across any two executions
over the same catalog and interaction data. -/
theorem random_seeded_runs_identical (s : Sampler) (db : DB)
    (calls : List (UserId × Nat × Bool)) (seed ambient1 ambient2 : Nat) :
    RandomRecommender.runCalls s db (RandomRecommender.construct s (some seed) ambient1) calls
      = RandomRecommender.runCalls s db (RandomRecommender.construct s (some seed) ambient2) calls :=
  rfl

/-- C8 (evaluation at the failing inputs): `train_model` returns `true` for
every registered algorithm, the never-training Random and MostPopular
strategies included, because `hasattr(recommender, "fit")` always holds —
`fit` is inherited from `BaseRecommender` — so the `return False` branch is
dead code. -/
theorem train_model_always_true :
    RecommenderService.train_model "random" = true ∧
    RecommenderService.train_model "popular" = true ∧
    RecommenderService.train_model "itemcf" = true :=
  ⟨rfl, rfl, rfl⟩

/-- C5: on a fitted ItemCF strategy, a user with an empty interacted set is
served by delegation to the MostPopular strategy (constructed with default
configuration, threshold 0) with `filter_interacted` disabled, and the result
is exactly that strategy's output. -/
theorem itemcf_cold_start_delegates (M : List (ItemId × List (ItemId × ℚ)))
    (s : Sampler) (db : DB) (rows : List (ItemId × Nat)) (rng : Nat)
    (user_id : UserId) (k : Nat) (filter_interacted : Bool)
    (h : DataLoader.get_user_interacted_items db user_id = []) :
    ItemCFRecommender.recommend s ⟨true, some M⟩ db rows rng user_id k filter_interacted
      = MostPopularRecommender.recommend db rows 0 user_id k false := by
  unfold ItemCFRecommender.recommend
  simp [h]

theorem itemcf_cold_start_delegates_witness :
    DataLoader.get_user_interacted_items dbW "u9" = [] ∧
    ItemCFRecommender.recommend takeSampler ⟨true, some [("a", [("b", 1)])]⟩ dbW rowsW 0 "u9" 3 true
      = MostPopularRecommender.recommend dbW rowsW 0 "u9" 3 false :=
  ⟨by decide,
   itemcf_cold_start_delegates [("a", [("b", 1)])] takeSampler dbW rowsW 0 "u9" 3 true (by decide)⟩

/-- C4: fitting ItemCF on an interaction matrix with zero qualifying records
returns normally with `_is_fitted = false`, and every subsequent `recommend`
call on that instance produces exactly the output of the Random strategy. -/
theorem itemcf_fit_empty_falls_back_to_random (prev : ItemCFRecommender.State)
    (db : DB) (min_interactions : Nat) (sim : Nat → Nat → ℚ)
    (min_similarity : ℚ) (top_n_similar : Nat)
    (h : DataLoader.interactionTriples db min_interactions = []) :
    (ItemCFRecommender.fit prev (DataLoader.interactionTriples db min_interactions)
        sim min_similarity top_n_similar).fitted = false ∧
    ∀ s rows rng user_id k filter_interacted,
      ItemCFRecommender.recommend s
          (ItemCFRecommender.fit prev (DataLoader.interactionTriples db min_interactions)
            sim min_similarity top_n_similar)
          db rows rng user_id k filter_interacted
        = (RandomRecommender.recommend s db user_id k filter_interacted rng).1 := by
  rw [h]
  obtain ⟨pf, psm⟩ := prev
  have hfit : ItemCFRecommender.fit ⟨pf, psm⟩ [] sim min_similarity top_n_similar
      = ⟨false, psm⟩ := rfl
  rw [hfit]
  refine ⟨rfl, ?_⟩
  intro s rows rng user_id k filter_interacted
  cases psm with
  | none => rfl
  | some M => rfl

theorem itemcf_fit_empty_falls_back_to_random_witness :
    DataLoader.interactionTriples dbEmpty 1 = [] ∧
    (ItemCFRecommender.fit ⟨true, none⟩ (DataLoader.interactionTriples dbEmpty 1)
        (fun _ _ => 0) 0 5).fitted = false ∧
    ItemCFRecommender.recommend takeSampler
        (ItemCFRecommender.fit ⟨true, none⟩ (DataLoader.interactionTriples dbEmpty 1)
          (fun _ _ => 0) 0 5)
        dbEmpty rowsW 0 "u1" 2 true
      = (RandomRecommender.recommend takeSampler dbEmpty "u1" 2 true 0).1 := by
  refine ⟨by decide, ?_, ?_⟩
  · exact (itemcf_fit_empty_falls_back_to_random ⟨true, none⟩ dbEmpty 1
      (fun _ _ => 0) 0 5 (by decide)).1
  · exact (itemcf_fit_empty_falls_back_to_random ⟨true, none⟩ dbEmpty 1
      (fun _ _ => 0) 0 5 (by decide)).2 takeSampler rowsW 0 "u1" 2 true

/-- C10: on a fitted ItemCF strategy, a user whose interacted set is
non-empty but disjoint from the similarity index's keys receives the empty
list — no fallback to Popularity or Random occurs on this path. -/
theorem itemcf_unindexed_history_returns_empty (M : List (ItemId × List (ItemId × ℚ)))
    (s : Sampler) (db : DB) (rows : List (ItemId × Nat)) (rng : Nat)
    (user_id : UserId) (k : Nat) (filter_interacted : Bool)
    (hne : DataLoader.get_user_interacted_items db user_id ≠ [])
    (habs : ∀ i ∈ DataLoader.get_user_interacted_items db user_id, List.lookup i M = none) :
    ItemCFRecommender.recommend s ⟨true, some M⟩ db rows rng user_id k filter_interacted = [] := by
  have hE : ItemCFRecommender.entryList M (DataLoader.get_user_interacted_items db user_id)
      = [] := by
    unfold ItemCFRecommender.entryList
    rw [List.flatMap_eq_nil_iff]
    intro i hi
    rw [habs i hi]
    rfl
  have hie : (DataLoader.get_user_interacted_items db user_id).isEmpty = false := by
    cases hgi : DataLoader.get_user_interacted_items db user_id with
    | nil => exact absurd hgi hne
    | cons a l => rfl
  unfold ItemCFRecommender.recommend
  simp only [hie, Bool.false_eq_true, if_false]
  unfold ItemCFRecommender.recommendFitted ItemCFRecommender.candidateKeys
  simp only [hE]
  cases filter_interacted <;> simp

theorem itemcf_unindexed_history_returns_empty_witness :
    DataLoader.get_user_interacted_items dbW "u1" ≠ [] ∧
    (∀ i ∈ DataLoader.get_user_interacted_items dbW "u1",
      List.lookup i [("b", [("c", (1 : ℚ))])] = none) ∧
    ItemCFRecommender.recommend takeSampler ⟨true, some [("b", [("c", (1 : ℚ))])]⟩
        dbW rowsW 0 "u1" 3 true = [] :=
  ⟨by decide, by decide,
   itemcf_unindexed_history_returns_empty [("b", [("c", (1 : ℚ))])] takeSampler dbW rowsW 0
     "u1" 3 true (by decide) (by decide)⟩

/-- C7: an algorithm name absent from the registry resolves to the default
algorithm, and the service's `recommend` returns exactly what it returns for
the default algorithm name; no error is raised (the embedding of
`get_recommender` is total on unknown names). -/
theorem unknown_algorithm_uses_default (algorithm : String)
    (h : (ALGORITHM_REGISTRY.lookup (RecommenderService.toLowerStr algorithm)).isSome = false) :
    RecommenderService.resolveKey algorithm = DEFAULT_ALGORITHM ∧
    ∀ s db rows cf rng user_id k filter_interacted,
      RecommenderService.recommend s db rows cf rng algorithm user_id k filter_interacted
        = RecommenderService.recommend s db rows cf rng DEFAULT_ALGORITHM user_id k
            filter_interacted := by
  have hres : RecommenderService.resolveKey algorithm = DEFAULT_ALGORITHM := by
    unfold RecommenderService.resolveKey
    simp [h]
  refine ⟨hres, ?_⟩
  intro s db rows cf rng user_id k filter_interacted
  have hdef : RecommenderService.resolveKey DEFAULT_ALGORITHM = DEFAULT_ALGORITHM := by decide
  have hstrat : RecommenderService.strategyFor algorithm
      = RecommenderService.strategyFor DEFAULT_ALGORITHM := by
    unfold RecommenderService.strategyFor
    rw [hres, hdef]
  unfold RecommenderService.recommend
  rw [hstrat]

theorem unknown_algorithm_uses_default_witness :
    (ALGORITHM_REGISTRY.lookup (RecommenderService.toLowerStr "bogus")).isSome = false ∧
    RecommenderService.recommend takeSampler dbW rowsW ⟨false, none⟩ 0 "bogus" "u1" 3 true
      = RecommenderService.recommend takeSampler dbW rowsW ⟨false, none⟩ 0 DEFAULT_ALGORITHM
          "u1" 3 true :=
  ⟨by decide,
   (unknown_algorithm_uses_default "bogus" (by decide)).2 takeSampler dbW rowsW
     ⟨false, none⟩ 0 "u1" 3 true⟩

theorem fitIndex_invariants (items : List ItemId) (sim : Nat → Nat → ℚ)
    (min_similarity : ℚ) (top_n_similar : Nat) (hnd : items.Nodup) :
    ∀ item nbrs,
      (item, nbrs) ∈ ItemCFRecommender.fitIndex items sim min_similarity top_n_similar →
      nbrs.length ≤ top_n_similar ∧
      (∀ p ∈ nbrs, p.1 ≠ item ∧ min_similarity ≤ p.2) ∧
      nbrs.Pairwise (fun a b => b.2 ≤ a.2) := by
  intro item nbrs hmem
  unfold ItemCFRecommender.fitIndex at hmem
  rw [List.mem_map] at hmem
  obtain ⟨idx, hidx, heq⟩ := hmem
  rw [List.mem_range] at hidx
  have h1 : items.getD idx "" = item := congrArg Prod.fst heq
  have h2 : (List.insertionSort scoreGE
      (ItemCFRecommender.neighborCandidates items sim min_similarity idx)).take top_n_similar
      = nbrs := congrArg Prod.snd heq
  subst h1
  subst h2
  refine ⟨?_, ?_, ?_⟩
  · rw [List.length_take]
    exact min_le_left _ _
  · intro p hp
    have hp1 : p ∈ List.insertionSort scoreGE
        (ItemCFRecommender.neighborCandidates items sim min_similarity idx) :=
      List.take_subset _ _ hp
    rw [List.mem_insertionSort] at hp1
    unfold ItemCFRecommender.neighborCandidates at hp1
    rw [List.mem_filterMap] at hp1
    obtain ⟨j, hj, hjp⟩ := hp1
    rw [List.mem_range] at hj
    by_cases hc : j ≠ idx ∧ min_similarity ≤ sim idx j
    · rw [if_pos hc] at hjp
      obtain ⟨hj_ne, hj_sim⟩ := hc
      have hp_eq : (items.getD j "", sim idx j) = p := Option.some.inj hjp
      subst hp_eq
      refine ⟨?_, hj_sim⟩
      rw [List.getD_eq_getElem _ _ hj, List.getD_eq_getElem _ _ hidx]
      intro hEq
      exact hj_ne (hnd.getElem_inj_iff.mp hEq)
    · rw [if_neg hc] at hjp
      exact absurd hjp (by simp)
  · exact List.Pairwise.take (List.sorted_insertionSort scoreGE _)

/-- C2: after a fit that found training data, every entry of the resulting
similarity index maps an item to a neighbor list that excludes the item
itself, has at most `top_n_similar` entries, carries only scores at or above
`min_similarity`, and is ordered non-increasing in score. -/
theorem itemcf_fit_index_invariants (prev : ItemCFRecommender.State)
    (triples : List (UserId × ItemId × Nat)) (sim : Nat → Nat → ℚ)
    (min_similarity : ℚ) (top_n_similar : Nat) (hne : triples ≠ []) :
    ∀ M, (ItemCFRecommender.fit prev triples sim min_similarity top_n_similar).similarity_matrix
        = some M →
      ∀ item nbrs, (item, nbrs) ∈ M →
        nbrs.length ≤ top_n_similar ∧
        (∀ p ∈ nbrs, p.1 ≠ item ∧ min_similarity ≤ p.2) ∧
        nbrs.Pairwise (fun a b => b.2 ≤ a.2) := by
  intro M hM
  unfold ItemCFRecommender.fit at hM
  rw [if_neg (by simpa using hne)] at hM
  have hM2 : ItemCFRecommender.fitIndex (ItemCFRecommender.triplesItems triples)
      sim min_similarity top_n_similar = M := Option.some.inj hM
  subst hM2
  exact fitIndex_invariants _ sim min_similarity top_n_similar (List.nodup_dedup _)

theorem itemcf_fit_index_invariants_witness :
    ([("u1", "a", 2), ("u2", "b", 1)] : List (UserId × ItemId × Nat)) ≠ [] ∧
    ∀ item nbrs,
      (item, nbrs) ∈ ItemCFRecommender.fitIndex
          (ItemCFRecommender.triplesItems [("u1", "a", 2), ("u2", "b", 1)])
          (fun _ _ => 1) 0 5 →
      nbrs.length ≤ 5 ∧
      (∀ p ∈ nbrs, p.1 ≠ item ∧ 0 ≤ p.2) ∧
      nbrs.Pairwise (fun a b => b.2 ≤ a.2) :=
  ⟨by decide,
   itemcf_fit_index_invariants ⟨false, none⟩ [("u1", "a", 2), ("u2", "b", 1)]
     (fun _ _ => 1) 0 5 (by decide) _ rfl⟩

theorem random_recommend_sound (s : Sampler) (hs : s.Good) (db : DB)
    (user_id : UserId) (k rng : Nat) :
    FilteredOk db user_id k (RandomRecommender.recommend s db user_id k true rng).1 := by
  unfold RandomRecommender.recommend
  by_cases h : (DataLoader.get_all_item_ids db).isEmpty = true
  · rw [if_pos h]
    exact ⟨by simp, by simp⟩
  · rw [if_neg h]
    show FilteredOk db user_id k
      (s.sample rng
        ((DataLoader.get_all_item_ids db).filter
          (fun item => decide (item ∉ DataLoader.get_user_interacted_items db user_id)))
        (min k ((DataLoader.get_all_item_ids db).filter
          (fun item => decide (item ∉ DataLoader.get_user_interacted_items db user_id))).length)).1
    obtain ⟨hlen, hmem⟩ := hs rng
      ((DataLoader.get_all_item_ids db).filter
        (fun item => decide (item ∉ DataLoader.get_user_interacted_items db user_id)))
      (min k ((DataLoader.get_all_item_ids db).filter
        (fun item => decide (item ∉ DataLoader.get_user_interacted_items db user_id))).length)
      (min_le_right _ _)
    constructor
    · rw [hlen]
      exact min_le_left _ _
    · intro x hx
      have hx2 := hmem x hx
      rw [List.mem_filter] at hx2
      simpa using hx2.2

theorem most_popular_length_le (db : DB) (rows : List (ItemId × Nat))
    (popularity_threshold : Nat) (user_id : UserId) (k : Nat) (fi : Bool) :
    (MostPopularRecommender.recommend db rows popularity_threshold user_id k fi).length ≤ k := by
  unfold MostPopularRecommender.recommend
  dsimp only
  by_cases h : (DataLoader.get_item_popularity rows
      (some (if fi = true then k * 3 else k))).isEmpty = true
  · rw [if_pos h]
    simp
  · rw [if_neg h]
    cases fi <;>
      simp only [Bool.false_eq_true, if_false, if_true] <;>
      rw [List.length_map, List.length_take] <;>
      exact min_le_left _ _

theorem most_popular_recommend_sound (db : DB) (rows : List (ItemId × Nat))
    (popularity_threshold : Nat) (user_id : UserId) (k : Nat) :
    FilteredOk db user_id k
      (MostPopularRecommender.recommend db rows popularity_threshold user_id k true) := by
  refine ⟨most_popular_length_le db rows popularity_threshold user_id k true, ?_⟩
  intro x hx
  unfold MostPopularRecommender.recommend at hx
  simp only [reduceIte] at hx
  by_cases h : (DataLoader.get_item_popularity rows (some (k * 3))).isEmpty = true
  · rw [if_pos h] at hx
    simp at hx
  · rw [if_neg h] at hx
    rw [List.mem_map] at hx
    obtain ⟨p, hp, rfl⟩ := hx
    have hp2 := List.take_subset _ _ hp
    rw [List.mem_filter] at hp2
    simpa using hp2.2

theorem itemcf_recommend_sound (s : Sampler) (hs : s.Good) (cf : ItemCFRecommender.State)
    (db : DB) (rows : List (ItemId × Nat)) (rng : Nat) (user_id : UserId) (k : Nat) :
    FilteredOk db user_id k (ItemCFRecommender.recommend s cf db rows rng user_id k true) := by
  obtain ⟨fitted, simM⟩ := cf
  cases fitted with
  | false =>
    cases simM with
    | none => exact random_recommend_sound s hs db user_id k rng
    | some M => exact random_recommend_sound s hs db user_id k rng
  | true =>
    cases simM with
    | none => exact random_recommend_sound s hs db user_id k rng
    | some M =>
      unfold ItemCFRecommender.recommend
      dsimp only
      by_cases h : (DataLoader.get_user_interacted_items db user_id).isEmpty = true
      · rw [if_pos h]
        refine ⟨most_popular_length_le db rows 0 user_id k false, ?_⟩
        intro x hx
        rw [List.isEmpty_eq_true] at h
        rw [h]
        simp
      · rw [if_neg h]
        unfold ItemCFRecommender.recommendFitted
        simp only [reduceIte]
        constructor
        · rw [List.length_map, List.length_take]
          exact min_le_left _ _
        · intro x hx
          rw [List.mem_map] at hx
          obtain ⟨p, hp, rfl⟩ := hx
          have hp2 := List.take_subset _ _ hp
          rw [List.mem_insertionSort, List.mem_map] at hp2
          obtain ⟨c, hc, rfl⟩ := hp2
          rw [List.mem_filter] at hc
          simpa using hc.2

/-- C1: with `filter_interacted = true`, each of the three strategies —
ItemCF on every one of its paths (unfitted → Random fallback, empty history
→ Popularity fallback, fitted scoring) included — returns at most `k` items
and none of the user's interacted items. -/
theorem strategies_respect_k_and_filter (s : Sampler) (hs : s.Good) (db : DB)
    (rows : List (ItemId × Nat)) (popularity_threshold : Nat)
    (cf : ItemCFRecommender.State) (rng : Nat) (user_id : UserId) (k : Nat)
    (_hk : 1 ≤ k) :
    FilteredOk db user_id k (RandomRecommender.recommend s db user_id k true rng).1 ∧
    FilteredOk db user_id k
      (MostPopularRecommender.recommend db rows popularity_threshold user_id k true) ∧
    FilteredOk db user_id k (ItemCFRecommender.recommend s cf db rows rng user_id k true) :=
  ⟨random_recommend_sound s hs db user_id k rng,
   most_popular_recommend_sound db rows popularity_threshold user_id k,
   itemcf_recommend_sound s hs cf db rows rng user_id k⟩

theorem strategies_respect_k_and_filter_witness :
    takeSampler.Good ∧ (1 : Nat) ≤ 2 ∧
    (FilteredOk dbW "u1" 2 (RandomRecommender.recommend takeSampler dbW "u1" 2 true 0).1 ∧
     FilteredOk dbW "u1" 2 (MostPopularRecommender.recommend dbW rowsW 0 "u1" 2 true) ∧
     FilteredOk dbW "u1" 2
       (ItemCFRecommender.recommend takeSampler ⟨true, some [("a", [("b", 1)])]⟩
         dbW rowsW 0 "u1" 2 true)) :=
  ⟨takeSampler_good, by decide,
   strategies_respect_k_and_filter takeSampler takeSampler_good dbW rowsW 0
     ⟨true, some [("a", [("b", 1)])]⟩ 0 "u1" 2 (by decide)⟩

theorem most_popular_exists_sublist (db : DB) (rows : List (ItemId × Nat))
    (popularity_threshold : Nat) (user_id : UserId) (k : Nat) (fi : Bool) :
    ∃ l, List.Sublist l rows ∧
      MostPopularRecommender.recommend db rows popularity_threshold user_id k fi
        = l.map (fun p => p.1) := by
  unfold MostPopularRecommender.recommend
  cases fi <;> simp only [Bool.false_eq_true, if_false, if_true]
  · by_cases h : (DataLoader.get_item_popularity rows (some k)).isEmpty = true
    · rw [if_pos h]
      exact ⟨[], List.nil_sublist rows, rfl⟩
    · rw [if_neg h]
      refine ⟨_, ?_, rfl⟩
      exact (List.take_sublist _ _).trans
        ((List.filter_sublist _).trans (get_item_popularity_sublist rows _))
  · by_cases h : (DataLoader.get_item_popularity rows (some (k * 3))).isEmpty = true
    · rw [if_pos h]
      exact ⟨[], List.nil_sublist rows, rfl⟩
    · rw [if_neg h]
      refine ⟨_, ?_, rfl⟩
      exact (List.take_sublist _ _).trans
        ((List.filter_sublist _).trans
          ((List.filter_sublist _).trans (get_item_popularity_sublist rows _)))

/-- C3 (amended): any valid answer of the popularity query — and hence
`get_item_popularity` under any limit, and the pair list underlying
MostPopular's output — is ordered non-increasing by interaction count, and
every returned count is the item's true interaction count.  The relative
order of equal-count items is NOT constrained to ascending item id: the SQL
has no secondary sort key (see the counterexample). -/
theorem popularity_sorted_by_count (db : DB) (rows : List (ItemId × Nat))
    (top_k : Option Nat) (h : DataLoader.PopularityRows db rows) :
    (DataLoader.get_item_popularity rows top_k).Pairwise (fun a b => b.2 ≤ a.2) ∧
    (∀ p ∈ DataLoader.get_item_popularity rows top_k,
      p.2 = DataLoader.itemCount db p.1) ∧
    ∀ popularity_threshold user_id k fi,
      (MostPopularRecommender.recommend db rows popularity_threshold user_id k fi).Pairwise
        (fun a b => DataLoader.itemCount db b ≤ DataLoader.itemCount db a) := by
  obtain ⟨hperm, hsort⟩ := h
  have hmemRows : ∀ p ∈ rows, p.2 = DataLoader.itemCount db p.1 := by
    intro p hp
    have hp2 : p ∈ DataLoader.popularityTable db := hperm.mem_iff.mp hp
    unfold DataLoader.popularityTable at hp2
    rw [List.mem_map] at hp2
    obtain ⟨i, _, rfl⟩ := hp2
    rfl
  refine ⟨?_, ?_, ?_⟩
  · exact List.Pairwise.sublist (get_item_popularity_sublist rows top_k) hsort
  · intro p hp
    exact hmemRows p ((get_item_popularity_sublist rows top_k).subset hp)
  · intro popularity_threshold user_id k fi
    obtain ⟨l, hl, heq⟩ := most_popular_exists_sublist db rows popularity_threshold user_id k fi
    rw [heq, List.pairwise_map]
    have hPl : l.Pairwise (fun a b => b.2 ≤ a.2) := List.Pairwise.sublist hl hsort
    refine hPl.imp_of_mem ?_
    intro a b ha hb hab
    rw [← hmemRows a (hl.subset ha), ← hmemRows b (hl.subset hb)]
    exact hab

theorem popularity_sorted_by_count_witness :
    DataLoader.PopularityRows dbW rowsW ∧
    (DataLoader.get_item_popularity rowsW (some 1)).Pairwise (fun a b => b.2 ≤ a.2) ∧
    (∀ p ∈ DataLoader.get_item_popularity rowsW (some 1),
      p.2 = DataLoader.itemCount dbW p.1) ∧
    (MostPopularRecommender.recommend dbW rowsW 0 "u1" 2 true).Pairwise
      (fun a b => DataLoader.itemCount dbW b ≤ DataLoader.itemCount dbW a) :=
  ⟨⟨by decide, by decide⟩,
   (popularity_sorted_by_count dbW rowsW (some 1) ⟨by decide, by decide⟩).1,
   (popularity_sorted_by_count dbW rowsW (some 1) ⟨by decide, by decide⟩).2.1,
   (popularity_sorted_by_count dbW rowsW (some 1) ⟨by decide, by decide⟩).2.2 0 "u1" 2 true⟩

/-- C3 counterexample: `tieRows` is a valid answer of the popularity query on
`tieDB` — the SQL sorts only by count — yet its equal-count entries are not
in ascending item-id order, refuting the claimed tie-break. -/
theorem popularity_tie_not_ascending :
    DataLoader.PopularityRows tieDB tieRows ∧
    ¬ (DataLoader.get_item_popularity tieRows none).Pairwise
        (fun a b => a.2 = b.2 → a.1 ≤ b.1) := by
  refine ⟨⟨by decide, by decide⟩, ?_⟩
  intro hpw
  have h2 := List.rel_of_pairwise_cons hpw (List.mem_cons_self _ _)
  have h3 : ¬ (("b" : String) ≤ "a") := by
    rw [not_le, String.lt_iff_toList_lt]
    decide
  exact absurd (h2 rfl) h3

end Theorems

end RecSys
